import Mathlib

/-!
Verification of the color cycling engine of `src/main.ts` (obsidian-color-cycler).

The TypeScript source manipulates JavaScript numbers (IEEE doubles, with
`NaN` and the two infinities) and JSON-shaped records.  The shallow
embedding models

* a JavaScript number as `JSNum`: `nan`, `inf`, `ninf`, or a finite value
  carried as a rational (`num q`); the arithmetic the source performs on
  colors (`%`, `+`, `*`, `Math.min`, `Math.max`) is exact on the values the
  plugin handles, so rationals are a faithful carrier;
* the persisted record (`loadData()` / `saveData()` payloads) as `JSVal`,
  a JSON-like tree extended with `undefined` for the result of reading an
  absent property; JSON payloads only carry finite numbers, so `JSVal`
  numbers are plain rationals;
* fallible evaluation (a TypeScript expression that can throw a
  `TypeError`, such as reading a property of `null`/`undefined`) as
  `Except Unit`.

Definitions follow the source functions named in their doc comments.
-/

namespace ColorCycler

/-- A JavaScript number: `NaN`, `Infinity`, `-Infinity`, or a finite value
(modelled as a rational). -/
inductive JSNum where
  | nan : JSNum
  | inf : JSNum
  | ninf : JSNum
  | num : ℚ → JSNum
deriving DecidableEq

/-- Truncation toward zero, as JavaScript's division-remainder semantics
uses: floor for nonnegative arguments, ceiling for negative ones. -/
def truncQ (q : ℚ) : ℤ := if 0 ≤ q then ⌊q⌋ else ⌈q⌉

/-- The finite case of JavaScript's `x % 360`: the remainder keeps the
dividend's sign (`x - 360 * trunc (x / 360)`). -/
def jsRemQ (q : ℚ) : ℚ := q - 360 * (truncQ (q / 360) : ℚ)

/-- JavaScript's `x % 360` on a full `JSNum`: `NaN` and the infinities give
`NaN`; a finite dividend gives the signed remainder. -/
def jsMod360 : JSNum → JSNum
  | .num q => .num (jsRemQ q)
  | _ => .nan

/-- `Math.max(v, b)` with a finite second argument `b`. -/
def jsMax (v : JSNum) (b : ℚ) : JSNum :=
  match v with
  | .nan => .nan
  | .inf => .inf
  | .ninf => .num b
  | .num q => .num (max q b)

/-- `Math.min(v, b)` with a finite second argument `b`. -/
def jsMin (v : JSNum) (b : ℚ) : JSNum :=
  match v with
  | .nan => .nan
  | .inf => .num b
  | .ninf => .ninf
  | .num q => .num (min q b)

/-- `bound` of `src/main.ts:124-126`:
`!Number.isNaN(value) ? Math.min(Math.max(value, min), max) : min`. -/
def bound (value : JSNum) (lo hi : ℚ) : JSNum :=
  if value ≠ .nan then jsMin (jsMax value lo) hi else .num lo

/-- An HSL triple as the plugin stores it (the `HSL` interface). -/
structure Color where
  h : JSNum
  s : JSNum
  l : JSNum
deriving DecidableEq

/-- The normalization step of `setColor` (`src/main.ts:305-310`):
`hue = color.h % 360`, `saturation = bound(color.s, 0, 100)`,
`lightness = bound(color.l, 0, 100)`; the stored color is rebuilt from
these three values. -/
def setColorNormalize (color : Color) : Color :=
  { h := jsMod360 color.h
    s := bound color.s 0 100
    l := bound color.l 0 100 }

/-- JavaScript `+` on two numbers. -/
def jsAdd : JSNum → JSNum → JSNum
  | .nan, _ => .nan
  | _, .nan => .nan
  | .inf, .ninf => .nan
  | .ninf, .inf => .nan
  | .inf, _ => .inf
  | _, .inf => .inf
  | .ninf, _ => .ninf
  | _, .ninf => .ninf
  | .num a, .num b => .num (a + b)

/-- JavaScript `x * 1000` (the positive literal the timer code multiplies
by): infinities and `NaN` are preserved, finite values scale. -/
def jsMul1000 : JSNum → JSNum
  | .nan => .nan
  | .inf => .inf
  | .ninf => .ninf
  | .num q => .num (q * 1000)

/-- The `IncrementBehavior` settings object. -/
structure IncrementBehavior where
  startAngle : JSNum
  degrees : JSNum
  saturation : JSNum
  lightness : JSNum
deriving DecidableEq

/-- `incrementColor` (`src/main.ts:337-350`): the stored color after one
increment cycle — `setColor({h: current.h + degrees, s: increment.saturation,
l: increment.lightness})`, whose normalization step is `setColorNormalize`. -/
def incrementColor (current : Color) (increment : IncrementBehavior) : Color :=
  setColorNormalize
    { h := jsAdd current.h increment.degrees
      s := increment.saturation
      l := increment.lightness }

/-- The `PresetBehavior` settings object; the list index is a natural
number (the source keeps it an integer array index). -/
structure PresetBehavior where
  currentPresetIndex : ℕ
  colorList : List Color
deriving DecidableEq

/-- `cyclePresetColor` (`src/main.ts:373-387`): advance the index
(`i+1 >= length ? 0 : i+1`), store it, and pass
`colorList[next] ?? currentColor` to `setColor`; the returned pair is the
updated preset state and the color `setColor` stores. -/
def cyclePresetColor (preset : PresetBehavior) (current : Color) : PresetBehavior × Color :=
  let nextPresetIndex :=
    if preset.currentPresetIndex + 1 ≥ preset.colorList.length then 0
    else preset.currentPresetIndex + 1
  ({ preset with currentPresetIndex := nextPresetIndex },
    setColorNormalize ((preset.colorList[nextPresetIndex]?).getD current))

/-- The remove-color handler of `showPresetSettings` (`src/main.ts:780-801`):
`colorList := colorList.slice(0, index) ++ colorList.slice(index+1)`,
`currentPresetIndex := 0`, then `setColor(colorList[0])`.  When the new list
is empty `colorList[0]` is `undefined` and `setColor` would throw reading
`color.h`, so the stored color is `none` in that case. -/
def removePresetColor (preset : PresetBehavior) (index : ℕ) : PresetBehavior × Option Color :=
  let newList := preset.colorList.take index ++ preset.colorList.drop (index + 1)
  ({ currentPresetIndex := 0, colorList := newList },
    (newList[0]?).map setColorNormalize)

/-- `timerSeconds` has TypeScript type `number | ""`. -/
inductive TimerSeconds where
  | num : JSNum → TimerSeconds
  | empty : TimerSeconds
deriving DecidableEq

/-- The `TimerSettings` object. -/
structure TimerSettings where
  isTimerEnabled : Bool
  timerSeconds : TimerSeconds
deriving DecidableEq

/-- JavaScript truthiness of a number: `0` and `NaN` are falsy. -/
def jsTruthyNum : JSNum → Bool
  | .nan => false
  | .inf => true
  | .ninf => true
  | .num q => q ≠ 0

/-- Truthiness of the `timerSeconds` field: the empty string is falsy. -/
def timerSecondsTruthy : TimerSeconds → Bool
  | .empty => false
  | .num n => jsTruthyNum n

/-- `timerSeconds || NaN`: the value when truthy, `NaN` otherwise. -/
def timerSecondsOrNaN : TimerSeconds → JSNum
  | .empty => .nan
  | .num n => if jsTruthyNum n then n else .nan

/-- `updateTimer` (`src/main.ts:290-303`): `clearInterval` always runs, so
the previous timer never survives (`prevTimer` is discarded); a new interval
of `bound(timerSeconds || NaN, 1, 86400) * 1000` milliseconds is scheduled
exactly when `isTimerEnabled && timerSeconds` is truthy.  The result is the
scheduled interval in milliseconds, `none` when no timer is active. -/
def updateTimer (prevTimer : Option JSNum) (timer : TimerSettings) : Option JSNum :=
  if timer.isTimerEnabled && timerSecondsTruthy timer.timerSeconds then
    some (jsMul1000 (bound (timerSecondsOrNaN timer.timerSeconds) 1 86400))
  else none

/-- The observable effect of one `setColor` call on scheduling and
persistence. -/
structure CycleEffect where
  didSave : Bool
  didRescheduleTimer : Bool
  lastSave : Option ℕ
deriving DecidableEq

/-- `this.lastSave` is `number | undefined` and is tested with JavaScript
truthiness (`if (this.lastSave)`), so a recorded timestamp of `0` counts as
no prior save. -/
def lastSaveTruthy : Option ℕ → Bool
  | none => false
  | some t => t ≠ 0

/-- The persistence branch of `setColor` (`src/main.ts:314-328`), with
`Date.now()` passed in as `now` (milliseconds): a manual call reschedules
the timer and saves unconditionally without touching `lastSave`; a
timer-triggered call saves when `lastSave` is falsy, or when
`now - lastSave > 60 * 1000`, recording `lastSave := now`, and otherwise
skips the write. -/
def setColorPersist (lastSave : Option ℕ) (isTimer : Bool) (now : ℕ) : CycleEffect :=
  if isTimer then
    if lastSaveTruthy lastSave then
      if (now : ℤ) - (lastSave.getD 0 : ℤ) > 60 * 1000 then
        { didSave := true, didRescheduleTimer := false, lastSave := some now }
      else
        { didSave := false, didRescheduleTimer := false, lastSave := lastSave }
    else
      { didSave := true, didRescheduleTimer := false, lastSave := some now }
  else
    { didSave := true, didRescheduleTimer := true, lastSave := lastSave }

/-- Run a sequence of timer-triggered cycles at the given `Date.now()`
timestamps, counting the persistence writes. -/
def runTimerCycles (init : Option ℕ) (times : List ℕ) : ℕ × Option ℕ :=
  times.foldl
    (fun acc t =>
      let eff := setColorPersist acc.2 true t
      (acc.1 + (if eff.didSave then 1 else 0), eff.lastSave))
    (0, init)

/-! ### The persistence layer: raw records, migration, loading

`loadData()` yields a JSON value (or `null` when no data file exists);
`JSVal` models such values, extended with `undefined` for the result of
reading an absent property.  Saving and re-loading a JSON-safe record is
the identity, so the `saveSettings(); loadData()` pair inside the
migration is modelled by returning the record that was saved. -/

/-- A JSON-shaped JavaScript value, plus `undefined`. -/
inductive JSVal where
  | null : JSVal
  | undefined : JSVal
  | bool : Bool → JSVal
  | num : ℚ → JSVal
  | str : String → JSVal
  | arr : List JSVal → JSVal
  | obj : List (String × JSVal) → JSVal

/-- Is the value `null` or `undefined` (property access on it throws)? -/
def isNullish : JSVal → Bool
  | .null => true
  | .undefined => true
  | _ => false

/-- JavaScript truthiness of a value. -/
def truthy : JSVal → Bool
  | .null => false
  | .undefined => false
  | .bool b => b
  | .num q => q ≠ 0
  | .str s => s ≠ ""
  | .arr _ => true
  | .obj _ => true

/-- The own enumerable properties a value contributes under object spread:
an object its fields, an array (and a string) its indexed elements, a
primitive nothing. -/
def ownProps : JSVal → List (String × JSVal)
  | .obj fields => fields
  | .arr elems => elems.enum.map (fun p => (toString p.1, p.2))
  | .str s => s.toList.enum.map (fun p => (toString p.1, .str (String.mk [p.2])))
  | _ => []

/-- Property read on a non-nullish base: the field's value, `undefined`
when absent. -/
def getField (v : JSVal) (key : String) : JSVal :=
  ((ownProps v).lookup key).getD .undefined

/-- `v[key]` as the source evaluates it: throws (`TypeError`) when `v` is
`null` or `undefined`, otherwise reads the property. -/
def jsGet (v : JSVal) (key : String) : Except Unit JSVal :=
  if isNullish v then .error () else .ok (getField v key)

/-- `a ?? b` (nullish coalescing). -/
def coalesce (a b : JSVal) : JSVal :=
  if isNullish a then b else a

/-- The field list of an object literal `{...a, ...b}`: `b`'s properties
override `a`'s.  (JavaScript keeps first-insertion key order; this model
puts `b`'s keys first, which is indistinguishable under `lookup`.) -/
def mergeProps (a b : List (String × JSVal)) : List (String × JSVal) :=
  b ++ a.filter (fun p => (b.lookup p.1).isNone)

/-- `DEFAULT_COLOR` (`src/main.ts:81-85`) as a record. -/
def defaultColorJS : JSVal :=
  .obj [("h", .num 0), ("s", .num 100), ("l", .num 50)]

/-- The `timer` part of `DEFAULT_THEME_SETTINGS` (`src/main.ts:90-93`). -/
def defaultTimerJS : JSVal :=
  .obj [("isTimerEnabled", .bool false), ("timerSeconds", .str "")]

/-- The `increment` part of `DEFAULT_THEME_SETTINGS` (`src/main.ts:94-99`). -/
def defaultIncrementJS : JSVal :=
  .obj [("startAngle", .num 0), ("degrees", .num 30),
        ("saturation", .num 100), ("lightness", .num 50)]

/-- The `random` part of `DEFAULT_THEME_SETTINGS` (`src/main.ts:100-107`). -/
def defaultRandomJS : JSVal :=
  .obj [("isHueRandom", .bool true), ("isSaturationRandom", .bool false),
        ("isLightnessRandom", .bool false), ("hue", .num 0),
        ("saturation", .num 100), ("lightness", .num 50)]

/-- The `preset` part of `DEFAULT_THEME_SETTINGS` (`src/main.ts:108-111`). -/
def defaultPresetJS : JSVal :=
  .obj [("currentPresetIndex", .num 0), ("colorList", .arr [defaultColorJS])]

/-- `DEFAULT_THEME_SETTINGS` (`src/main.ts:87-112`); the `behavior` enum
value `Behavior.INCREMENT` is the string `"increment"`. -/
def defaultThemeJS : JSVal :=
  .obj [("color", defaultColorJS), ("behavior", .str "increment"),
        ("timer", defaultTimerJS), ("increment", defaultIncrementJS),
        ("random", defaultRandomJS), ("preset", defaultPresetJS)]

/-- `DEFAULT_SETTINGS` (`src/main.ts:114-122`); all three contexts share
`DEFAULT_THEME_SETTINGS`. -/
def defaultSettingsJS : JSVal :=
  .obj [("shouldShowStatusBar", .bool false),
        ("shouldShowSeparateThemeSettings", .bool false),
        ("themes", .obj [("base", defaultThemeJS), ("dark", defaultThemeJS),
                         ("light", defaultThemeJS)])]

/-- `savedData?.key` (optional chaining): `undefined` on a nullish base,
an ordinary read otherwise. -/
def optField (v : JSVal) (key : String) : JSVal :=
  if isNullish v then .undefined else getField v key

/-- The `base` context the migration branch of `migrateBaseThemeSettings`
(`src/main.ts:221-241`) builds: `color` and `behavior` by `?? default`,
the four nested objects by `{...default, ...savedData?.section}`. -/
def migratedBase (savedData : JSVal) : JSVal :=
  .obj [
    ("color", coalesce (optField savedData "color") defaultColorJS),
    ("behavior", coalesce (optField savedData "behavior") (.str "increment")),
    ("timer", .obj (mergeProps (ownProps defaultTimerJS)
        (ownProps (optField savedData "timer")))),
    ("increment", .obj (mergeProps (ownProps defaultIncrementJS)
        (ownProps (optField savedData "increment")))),
    ("random", .obj (mergeProps (ownProps defaultRandomJS)
        (ownProps (optField savedData "random")))),
    ("preset", .obj (mergeProps (ownProps defaultPresetJS)
        (ownProps (optField savedData "preset"))))]

/-- The record `migrateBaseThemeSettings` re-saves and re-reads for a
legacy flat input: `this.settings` (still `DEFAULT_SETTINGS` at this point
of `onload`) with `themes.base` replaced by the migrated base; the
`delete` statements remove keys the object never had, and the re-read of
the just-saved JSON record is the record itself. -/
def migratedRecord (savedData : JSVal) : JSVal :=
  .obj [("shouldShowStatusBar", .bool false),
        ("shouldShowSeparateThemeSettings", .bool false),
        ("themes", .obj [("base", migratedBase savedData),
                         ("dark", defaultThemeJS), ("light", defaultThemeJS)])]

/-- `migrateBaseThemeSettings` (`src/main.ts:216-253`).  The first line,
`if (savedData.themes) return savedData;`, reads `.themes` without
optional chaining, so a nullish `savedData` throws.  Otherwise: a record
with a truthy legacy `behavior`/`timer`/`increment`/`random`/`preset`
field is migrated, saved and re-read; any other record falls off the end
of the function (`undefined`). -/
def migrateBaseThemeSettings (savedData : JSVal) : Except Unit JSVal :=
  if isNullish savedData then .error ()
  else if truthy (getField savedData "themes") then .ok savedData
  else if truthy (getField savedData "behavior") || truthy (getField savedData "timer")
      || truthy (getField savedData "increment") || truthy (getField savedData "random")
      || truthy (getField savedData "preset") then
    .ok (migratedRecord savedData)
  else .ok .undefined

/-- `savedData?.themes[mode]?.key` as `getThemeSettings`
(`src/main.ts:192-214`) evaluates it: the leading `?.` short-circuits a
nullish `savedData`; `themes[mode]` then throws when `themes` is absent;
the trailing `?.` guards a nullish context. -/
def chainThemeField (savedData : JSVal) (mode key : String) : Except Unit JSVal :=
  if isNullish savedData then .ok .undefined
  else if isNullish (getField savedData "themes") then .error ()
  else if isNullish (getField (getField savedData "themes") mode) then .ok .undefined
  else .ok (getField (getField (getField savedData "themes") mode) key)

/-- `getThemeSettings` (`src/main.ts:192-214`): `color` and `behavior` by
`?? default`, the four nested objects deep-merged field-by-field over the
compiled-in defaults (`DEFAULT_SETTINGS.themes[mode]` is
`DEFAULT_THEME_SETTINGS` for every mode). -/
def getThemeSettings (savedData : JSVal) (mode : String) : Except Unit JSVal :=
  match chainThemeField savedData mode "color", chainThemeField savedData mode "behavior",
      chainThemeField savedData mode "timer", chainThemeField savedData mode "increment",
      chainThemeField savedData mode "random", chainThemeField savedData mode "preset" with
  | .ok color, .ok behavior, .ok timerS, .ok incS, .ok randS, .ok presS =>
      .ok (.obj [
        ("color", coalesce color defaultColorJS),
        ("behavior", coalesce behavior (.str "increment")),
        ("timer", .obj (mergeProps (ownProps defaultTimerJS) (ownProps timerS))),
        ("increment", .obj (mergeProps (ownProps defaultIncrementJS) (ownProps incS))),
        ("random", .obj (mergeProps (ownProps defaultRandomJS) (ownProps randS))),
        ("preset", .obj (mergeProps (ownProps defaultPresetJS) (ownProps presS)))])
  | _, _, _, _, _, _ => .error ()

/-- `loadSettings` (`src/main.ts:255-268`): migrate the saved data, then
build `{...DEFAULT_SETTINGS, ...migratedSavedData, themes: {base, dark,
light}}` from the three per-context results. -/
def loadSettings (savedData : JSVal) : Except Unit JSVal :=
  match migrateBaseThemeSettings savedData with
  | .error e => .error e
  | .ok migrated =>
    match getThemeSettings migrated "base", getThemeSettings migrated "dark",
        getThemeSettings migrated "light" with
    | .ok base, .ok dark, .ok light =>
        .ok (.obj (mergeProps
          (mergeProps (ownProps defaultSettingsJS) (ownProps migrated))
          [("themes", .obj [("base", base), ("dark", dark), ("light", light)])]))
    | _, _, _ => .error ()

/-! ### Arithmetic facts about the JavaScript remainder and `bound` -/

/-- The signed remainder lies strictly between `-360` and `360`, and is
nonnegative for a nonnegative dividend. -/
theorem jsRemQ_bounds (q : ℚ) :
    -360 < jsRemQ q ∧ jsRemQ q < 360 ∧ (0 ≤ q → 0 ≤ jsRemQ q) := by
  have hkey : 360 * (q / 360) = q := by
    rw [mul_comm]; exact div_mul_cancel₀ q (by norm_num)
  unfold jsRemQ truncQ
  by_cases hx : 0 ≤ q / 360
  · rw [if_pos hx]
    have h1 : ((⌊q / 360⌋ : ℤ) : ℚ) ≤ q / 360 := Int.floor_le _
    have h2 : q / 360 < ((⌊q / 360⌋ : ℤ) : ℚ) + 1 := Int.lt_floor_add_one _
    have h1' : 360 * ((⌊q / 360⌋ : ℤ) : ℚ) ≤ q := by
      have := mul_le_mul_of_nonneg_left h1 (by norm_num : (0:ℚ) ≤ 360)
      rwa [hkey] at this
    have h2' : q < 360 * ((⌊q / 360⌋ : ℤ) : ℚ) + 360 := by
      have := mul_lt_mul_of_pos_left h2 (by norm_num : (0:ℚ) < 360)
      rw [hkey, mul_add] at this
      linarith
    exact ⟨by linarith, by linarith, fun _ => by linarith⟩
  · rw [if_neg hx]
    push_neg at hx
    have h1 : q / 360 ≤ ((⌈q / 360⌉ : ℤ) : ℚ) := Int.le_ceil _
    have h2 : ((⌈q / 360⌉ : ℤ) : ℚ) < q / 360 + 1 := Int.ceil_lt_add_one _
    have h1' : q ≤ 360 * ((⌈q / 360⌉ : ℤ) : ℚ) := by
      have := mul_le_mul_of_nonneg_left h1 (by norm_num : (0:ℚ) ≤ 360)
      rwa [hkey] at this
    have h2' : 360 * ((⌈q / 360⌉ : ℤ) : ℚ) < q + 360 := by
      have := mul_lt_mul_of_pos_left h2 (by norm_num : (0:ℚ) < 360)
      rw [mul_add, hkey] at this
      linarith
    have hq : q < 0 := by
      have := mul_lt_mul_of_pos_left hx (by norm_num : (0:ℚ) < 360)
      rw [hkey] at this
      linarith
    exact ⟨by linarith, by linarith, fun h0 => absurd h0 (by linarith)⟩

/-- A value already strictly inside `(-360, 360)` is its own remainder. -/
theorem jsRemQ_eq_self (q : ℚ) (hlb : -360 < q) (hub : q < 360) : jsRemQ q = q := by
  unfold jsRemQ truncQ
  by_cases hx : 0 ≤ q / 360
  · rw [if_pos hx]
    have hfl : ⌊q / 360⌋ = 0 := by
      rw [Int.floor_eq_zero_iff, Set.mem_Ico]
      exact ⟨hx, (div_lt_one (by norm_num)).mpr hub⟩
    rw [hfl]
    push_cast
    ring
  · rw [if_neg hx]
    push_neg at hx
    have hcl : ⌈q / 360⌉ = 0 := by
      rw [Int.ceil_eq_zero_iff, Set.mem_Ioc]
      exact ⟨(lt_div_iff (by norm_num : (0:ℚ) < 360)).mpr (by linarith), le_of_lt hx⟩
    rw [hcl]
    push_cast
    ring

/-- `x % 360` is idempotent on every JavaScript number. -/
theorem jsMod360_idem (n : JSNum) : jsMod360 (jsMod360 n) = jsMod360 n := by
  cases n with
  | num q =>
    obtain ⟨hlb, hub, -⟩ := jsRemQ_bounds q
    simp only [jsMod360, jsRemQ_eq_self (jsRemQ q) hlb hub]
  | nan => rfl
  | inf => rfl
  | ninf => rfl

/-- `bound(v, 0, 100)` always produces a finite value inside `[0, 100]`. -/
theorem bound_range (v : JSNum) :
    ∃ q : ℚ, bound v 0 100 = .num q ∧ 0 ≤ q ∧ q ≤ 100 := by
  cases v with
  | nan => exact ⟨0, rfl, le_refl 0, by norm_num⟩
  | inf => exact ⟨100, rfl, by norm_num, le_refl 100⟩
  | ninf =>
    refine ⟨0, ?_, le_refl 0, by norm_num⟩
    show jsMin (.num 0) 100 = .num 0
    simp [jsMin, min_eq_left (by norm_num : (0:ℚ) ≤ 100)]
  | num q =>
    refine ⟨min (max q 0) 100, ?_, le_min (le_max_right q 0) (by norm_num),
      min_le_right _ _⟩
    simp [bound, jsMax, jsMin]

/-- `bound(q, 0, 100)` leaves a finite value already inside `[0, 100]`
unchanged. -/
theorem bound_eq_self (q : ℚ) (h0 : 0 ≤ q) (h100 : q ≤ 100) :
    bound (.num q) 0 100 = .num q := by
  simp [bound, jsMax, jsMin, max_eq_left h0, min_eq_left h100]

/-- `bound(·, 0, 100)` is idempotent. -/
theorem bound_idem (v : JSNum) : bound (bound v 0 100) 0 100 = bound v 0 100 := by
  obtain ⟨q, hq, h0, h100⟩ := bound_range v
  rw [hq, bound_eq_self q h0 h100]

/-- A color whose channels are finite and in range is a fixed point of the
normalization step. -/
theorem setColorNormalize_fixed (qh qs ql : ℚ) (hh0 : 0 ≤ qh) (hh1 : qh < 360)
    (hs0 : 0 ≤ qs) (hs1 : qs ≤ 100) (hl0 : 0 ≤ ql) (hl1 : ql ≤ 100) :
    setColorNormalize ⟨.num qh, .num qs, .num ql⟩ = ⟨.num qh, .num qs, .num ql⟩ := by
  simp [setColorNormalize, jsMod360, jsRemQ_eq_self qh (by linarith) hh1,
    bound_eq_self qs hs0 hs1, bound_eq_self ql hl0 hl1]

/-! ### Claims about the normalization step (C1, C9) -/

/-- C1 fails on the code: `setColor` computes the hue with JavaScript's
`%`, whose result keeps the dividend's sign, so the raw triple
`{h: -30, s: 0, l: 0}` is stored with hue `-30`, not a value in
`[0, 360)`. -/
theorem C1_counterexample :
    (setColorNormalize ⟨.num (-30), .num 0, .num 0⟩).h = .num (-30) ∧
    ¬ ∃ q : ℚ, (setColorNormalize ⟨.num (-30), .num 0, .num 0⟩).h = .num q ∧
      0 ≤ q ∧ q < 360 := by
  have hval : (setColorNormalize ⟨.num (-30), .num 0, .num 0⟩).h = .num (-30) := by
    show jsMod360 (.num (-30)) = .num (-30)
    simp only [jsMod360]
    rw [jsRemQ_eq_self (-30) (by norm_num) (by norm_num)]
  refine ⟨hval, ?_⟩
  rintro ⟨q, hq, h0, -⟩
  rw [hval] at hq
  injection hq with h
  rw [← h] at h0
  norm_num at h0

/-- C1 (amended): in the normalization step of `setColor`, saturation and
lightness are always stored as finite values in `[0, 100]`, with `NaN`
mapped to the lower bound `0` but `Infinity` mapped to the upper bound
`100`; the stored hue is the JavaScript remainder of `h` by `360` — a
value strictly inside `(-360, 360)` that keeps the sign of the input (so
it is in `[0, 360)` exactly for nonnegative finite input), while a
non-finite `h` is stored as `NaN`, not `0`. -/
theorem C1_amended (raw : Color) :
    (∃ q : ℚ, (setColorNormalize raw).s = .num q ∧ 0 ≤ q ∧ q ≤ 100) ∧
    (∃ q : ℚ, (setColorNormalize raw).l = .num q ∧ 0 ≤ q ∧ q ≤ 100) ∧
    (raw.s = .nan → (setColorNormalize raw).s = .num 0) ∧
    (raw.l = .nan → (setColorNormalize raw).l = .num 0) ∧
    (raw.s = .inf → (setColorNormalize raw).s = .num 100) ∧
    (∀ q : ℚ, raw.h = .num q →
      (setColorNormalize raw).h = .num (jsRemQ q) ∧
      -360 < jsRemQ q ∧ jsRemQ q < 360 ∧ (0 ≤ q → 0 ≤ jsRemQ q)) ∧
    ((raw.h = .nan ∨ raw.h = .inf ∨ raw.h = .ninf) →
      (setColorNormalize raw).h = .nan) := by
  refine ⟨bound_range raw.s, bound_range raw.l, ?_, ?_, ?_, ?_, ?_⟩
  · intro hs
    show bound raw.s 0 100 = .num 0
    rw [hs]
    rfl
  · intro hl
    show bound raw.l 0 100 = .num 0
    rw [hl]
    rfl
  · intro hs
    show bound raw.s 0 100 = .num 100
    rw [hs]
    rfl
  · intro q hq
    have hh : (setColorNormalize raw).h = .num (jsRemQ q) := by
      show jsMod360 raw.h = .num (jsRemQ q)
      rw [hq]
      rfl
    obtain ⟨h1, h2, h3⟩ := jsRemQ_bounds q
    exact ⟨hh, h1, h2, h3⟩
  · rintro (hh | hh | hh) <;> (show jsMod360 raw.h = .nan) <;> rw [hh] <;> rfl

/-- C1 witness: at the concrete raw triple `{h: 725, s: NaN, l: ∞}` the
amended statement pins the stored hue to the remainder of `725` and the
stored saturation to `0`. -/
theorem C1_witness :
    (setColorNormalize ⟨.num 725, .nan, .inf⟩).h = .num (jsRemQ 725) ∧
    (setColorNormalize ⟨.num 725, .nan, .inf⟩).s = .num 0 :=
  ⟨((C1_amended ⟨.num 725, .nan, .inf⟩).2.2.2.2.2.1 725 rfl).1,
   (C1_amended ⟨.num 725, .nan, .inf⟩).2.2.1 rfl⟩

/-- C9: the normalization applied by `setColor` is idempotent on every
color triple, including triples with negative, `NaN`, or infinite
components. -/
theorem C9_normalize_idempotent (c : Color) :
    setColorNormalize (setColorNormalize c) = setColorNormalize c := by
  cases c with
  | mk h s l => simp [setColorNormalize, jsMod360_idem, bound_idem]

/-! ### Claim about the Increment behavior (C5) -/

/-- C5: one Increment cycle adds the configured degrees to the current
hue and reduces the sum into `[0, 360)`, while saturation and lightness
are reset to the configured static values no matter what the current
color's saturation and lightness are. -/
theorem C5_increment (current : Color) (increment : IncrementBehavior)
    (qh qd qs ql : ℚ)
    (hh : current.h = .num qh) (hh0 : 0 ≤ qh)
    (hd : increment.degrees = .num qd) (hd0 : 0 ≤ qd)
    (hs : increment.saturation = .num qs) (hs0 : 0 ≤ qs) (hs100 : qs ≤ 100)
    (hl : increment.lightness = .num ql) (hl0 : 0 ≤ ql) (hl100 : ql ≤ 100) :
    incrementColor current increment =
      ⟨.num (jsRemQ (qh + qd)), .num qs, .num ql⟩ ∧
    0 ≤ jsRemQ (qh + qd) ∧ jsRemQ (qh + qd) < 360 ∧
    ∃ k : ℤ, qh + qd = jsRemQ (qh + qd) + 360 * (k : ℚ) := by
  obtain ⟨-, hub, hnn⟩ := jsRemQ_bounds (qh + qd)
  refine ⟨?_, hnn (by linarith), hub, ⟨truncQ ((qh + qd) / 360), by unfold jsRemQ; ring⟩⟩
  unfold incrementColor
  rw [hh, hd, hs, hl]
  show setColorNormalize ⟨jsAdd (.num qh) (.num qd), .num qs, .num ql⟩ = _
  simp [setColorNormalize, jsAdd, jsMod360, bound_eq_self qs hs0 hs100,
    bound_eq_self ql hl0 hl100]

/-- C5 witness: from `h = 350` and `degrees = 30` the new hue is `20`
(`380 mod 360`), and the configured saturation `77` / lightness `42`
replace the junk current values (`NaN`, `∞`). -/
theorem C5_witness :
    incrementColor ⟨.num 350, .nan, .inf⟩ ⟨.num 0, .num 30, .num 77, .num 42⟩ =
      ⟨.num (jsRemQ (350 + 30)), .num 77, .num 42⟩ ∧
    jsRemQ (350 + 30) = 20 :=
  ⟨(C5_increment ⟨.num 350, .nan, .inf⟩ ⟨.num 0, .num 30, .num 77, .num 42⟩
      350 30 77 42 rfl (by norm_num) rfl (by norm_num) rfl (by norm_num)
      (by norm_num) rfl (by norm_num) (by norm_num)).1,
   by norm_num [jsRemQ, truncQ]⟩

/-! ### Claims about the Preset behavior (C6, C10) -/

/-- C6: for a non-empty color list and a valid current index, one Preset
cycle advances the index to `(i + 1) mod length` — always again a valid
index — leaves the list unchanged, and stores the list entry at the new
index as the context's color (entries satisfying the color invariant are
fixed points of the normalization `setColor` applies). -/
theorem C6_preset_cycle (preset : PresetBehavior) (current : Color)
    (hne : preset.colorList ≠ [])
    (hidx : preset.currentPresetIndex < preset.colorList.length)
    (hnorm : ∀ c ∈ preset.colorList, setColorNormalize c = c) :
    (cyclePresetColor preset current).1.currentPresetIndex =
        (preset.currentPresetIndex + 1) % preset.colorList.length ∧
    (cyclePresetColor preset current).1.currentPresetIndex <
        preset.colorList.length ∧
    (cyclePresetColor preset current).1.colorList = preset.colorList ∧
    preset.colorList[(preset.currentPresetIndex + 1) % preset.colorList.length]? =
        some (cyclePresetColor preset current).2 := by
  have hn : 0 < preset.colorList.length := List.length_pos.mpr hne
  have hmod : (if preset.currentPresetIndex + 1 ≥ preset.colorList.length then 0
      else preset.currentPresetIndex + 1) =
      (preset.currentPresetIndex + 1) % preset.colorList.length := by
    by_cases hc : preset.currentPresetIndex + 1 ≥ preset.colorList.length
    · rw [if_pos hc]
      have heq : preset.currentPresetIndex + 1 = preset.colorList.length := by omega
      rw [heq, Nat.mod_self]
    · rw [if_neg hc]
      exact (Nat.mod_eq_of_lt (by omega)).symm
  have hfirst : (cyclePresetColor preset current).1.currentPresetIndex =
      (preset.currentPresetIndex + 1) % preset.colorList.length := hmod
  have hj : (preset.currentPresetIndex + 1) % preset.colorList.length <
      preset.colorList.length := Nat.mod_lt _ hn
  refine ⟨hfirst, hfirst ▸ hj, rfl, ?_⟩
  show _ = some (setColorNormalize
    ((preset.colorList[(if preset.currentPresetIndex + 1 ≥ preset.colorList.length
        then 0 else preset.currentPresetIndex + 1)]?).getD current))
  rw [hmod, List.getElem?_eq_getElem hj]
  rw [Option.getD_some,
    hnorm (preset.colorList[(preset.currentPresetIndex + 1) % preset.colorList.length])
      (preset.colorList.getElem_mem hj)]

/-- C6 witness: with `colorList = [A, B, C]` and current index `2`, one
cycle wraps the index to `0` and stores `A`. -/
theorem C6_witness :
    (cyclePresetColor
        ⟨2, [⟨.num 10, .num 20, .num 30⟩, ⟨.num 40, .num 50, .num 60⟩,
             ⟨.num 70, .num 80, .num 90⟩]⟩
        ⟨.num 0, .num 0, .num 0⟩).1.currentPresetIndex =
      (2 + 1) % ([⟨.num 10, .num 20, .num 30⟩, ⟨.num 40, .num 50, .num 60⟩,
             ⟨.num 70, .num 80, .num 90⟩] : List Color).length ∧
    (cyclePresetColor
        ⟨2, [⟨.num 10, .num 20, .num 30⟩, ⟨.num 40, .num 50, .num 60⟩,
             ⟨.num 70, .num 80, .num 90⟩]⟩
        ⟨.num 0, .num 0, .num 0⟩).1.currentPresetIndex <
      ([⟨.num 10, .num 20, .num 30⟩, ⟨.num 40, .num 50, .num 60⟩,
             ⟨.num 70, .num 80, .num 90⟩] : List Color).length ∧
    (cyclePresetColor
        ⟨2, [⟨.num 10, .num 20, .num 30⟩, ⟨.num 40, .num 50, .num 60⟩,
             ⟨.num 70, .num 80, .num 90⟩]⟩
        ⟨.num 0, .num 0, .num 0⟩).1.colorList =
      [⟨.num 10, .num 20, .num 30⟩, ⟨.num 40, .num 50, .num 60⟩,
             ⟨.num 70, .num 80, .num 90⟩] ∧
    ([⟨.num 10, .num 20, .num 30⟩, ⟨.num 40, .num 50, .num 60⟩,
             ⟨.num 70, .num 80, .num 90⟩] : List Color)[(2 + 1) %
        ([⟨.num 10, .num 20, .num 30⟩, ⟨.num 40, .num 50, .num 60⟩,
             ⟨.num 70, .num 80, .num 90⟩] : List Color).length]? =
      some (cyclePresetColor
        ⟨2, [⟨.num 10, .num 20, .num 30⟩, ⟨.num 40, .num 50, .num 60⟩,
             ⟨.num 70, .num 80, .num 90⟩]⟩
        ⟨.num 0, .num 0, .num 0⟩).2 :=
  C6_preset_cycle
    ⟨2, [⟨.num 10, .num 20, .num 30⟩, ⟨.num 40, .num 50, .num 60⟩,
         ⟨.num 70, .num 80, .num 90⟩]⟩
    ⟨.num 0, .num 0, .num 0⟩
    (by simp)
    (by norm_num)
    (by
      intro c hc
      simp only [List.mem_cons, List.not_mem_nil, or_false] at hc
      rcases hc with h | h | h <;> subst h <;>
        exact setColorNormalize_fixed _ _ _ (by norm_num) (by norm_num) (by norm_num)
          (by norm_num) (by norm_num) (by norm_num))

/-- C10: removing the entry at a valid position `i` from a preset list of
length at least 2 leaves the original list with element `i` deleted,
resets the current index to `0` whatever it was and whatever `i` was, and
stores the normalization of the first remaining entry as the context's
color. -/
theorem C10_remove_preset (preset : PresetBehavior) (index : ℕ)
    (hlen : 2 ≤ preset.colorList.length) (hidx : index < preset.colorList.length) :
    (removePresetColor preset index).1.colorList = preset.colorList.eraseIdx index ∧
    (removePresetColor preset index).1.currentPresetIndex = 0 ∧
    ∃ e, (preset.colorList.eraseIdx index)[0]? = some e ∧
      (removePresetColor preset index).2 = some (setColorNormalize e) := by
  have herase : preset.colorList.take index ++ preset.colorList.drop (index + 1)
      = preset.colorList.eraseIdx index :=
    (List.eraseIdx_eq_take_drop_succ _ _).symm
  have hlen' : 0 < (preset.colorList.eraseIdx index).length := by
    rw [← herase]
    have h1 : (preset.colorList.take index).length = index :=
      List.length_take_of_le (le_of_lt hidx)
    have h2 : (preset.colorList.drop (index + 1)).length =
        preset.colorList.length - (index + 1) := List.length_drop _ _
    rw [List.length_append, h1, h2]
    omega
  have hget : (preset.colorList.eraseIdx index)[0]? =
      some ((preset.colorList.eraseIdx index).get ⟨0, hlen'⟩) := by
    rw [List.getElem?_eq_getElem hlen']
    rfl
  refine ⟨herase, rfl, (preset.colorList.eraseIdx index).get ⟨0, hlen'⟩, hget, ?_⟩
  show ((preset.colorList.take index ++ preset.colorList.drop (index + 1))[0]?).map
      setColorNormalize = _
  rw [herase, hget]
  rfl

/-- C10 witness: removing position `1` from `[A, B, C]` yields `[A, C]`,
index `0`, and stores the normalization of `A`. -/
theorem C10_witness :
    (removePresetColor
        ⟨2, [⟨.num 10, .num 20, .num 30⟩, ⟨.num 40, .num 50, .num 60⟩,
             ⟨.num 70, .num 80, .num 90⟩]⟩ 1).1.colorList =
      ([⟨.num 10, .num 20, .num 30⟩, ⟨.num 40, .num 50, .num 60⟩,
             ⟨.num 70, .num 80, .num 90⟩] : List Color).eraseIdx 1 ∧
    (removePresetColor
        ⟨2, [⟨.num 10, .num 20, .num 30⟩, ⟨.num 40, .num 50, .num 60⟩,
             ⟨.num 70, .num 80, .num 90⟩]⟩ 1).1.currentPresetIndex = 0 ∧
    ∃ e, (([⟨.num 10, .num 20, .num 30⟩, ⟨.num 40, .num 50, .num 60⟩,
             ⟨.num 70, .num 80, .num 90⟩] : List Color).eraseIdx 1)[0]? = some e ∧
      (removePresetColor
        ⟨2, [⟨.num 10, .num 20, .num 30⟩, ⟨.num 40, .num 50, .num 60⟩,
             ⟨.num 70, .num 80, .num 90⟩]⟩ 1).2 = some (setColorNormalize e) :=
  C10_remove_preset
    ⟨2, [⟨.num 10, .num 20, .num 30⟩, ⟨.num 40, .num 50, .num 60⟩,
         ⟨.num 70, .num 80, .num 90⟩]⟩ 1 (by norm_num) (by norm_num)

/-! ### Claim about the timer (C8) -/

/-- C8 fails on the code: `updateTimer` tests `timerSeconds` only for
truthiness, so the negative seconds value `-5` — not a positive integer —
still schedules a timer (at the clamped interval), contradicting the
claimed "if and only if". -/
theorem C8_counterexample :
    (updateTimer none ⟨true, .num (.num (-5))⟩).isSome = true ∧
    ¬ ∃ n : ℤ, 0 < n ∧
      TimerSeconds.num (.num (-5)) = TimerSeconds.num (.num (n : ℚ)) := by
  constructor
  · norm_num [updateTimer, timerSecondsTruthy, jsTruthyNum]
  · rintro ⟨n, hn, heq⟩
    injection heq with h
    injection h with h'
    have hq : (n : ℚ) = -5 := h'.symm
    have hz : n = -5 := by exact_mod_cast hq
    omega

/-- C8 (amended): `updateTimer` always discards the previous timer (its
result does not depend on it) and schedules a repeating trigger exactly
when the timer is enabled and its seconds value is truthy (a nonzero,
non-`NaN` number — negative and fractional values included); the
scheduled interval is the seconds value clamped into `[1, 86400]`, times
1000 milliseconds, so for an enabled timer with positive integer seconds
`n` the interval is `min n 86400` seconds, and empty or zero seconds
leave the timer inactive regardless of the enabled flag. -/
theorem C8_amended (prevTimer : Option JSNum) (timer : TimerSettings) :
    ((updateTimer prevTimer timer).isSome = true ↔
      timer.isTimerEnabled = true ∧ timerSecondsTruthy timer.timerSeconds = true) ∧
    (∀ x, updateTimer prevTimer timer = some x →
      ∃ q : ℚ, x = .num (q * 1000) ∧ 1 ≤ q ∧ q ≤ 86400) ∧
    (∀ n : ℤ, 0 < n → timer.timerSeconds = .num (.num (n : ℚ)) →
      timer.isTimerEnabled = true →
      updateTimer prevTimer timer = some (.num (min (n : ℚ) 86400 * 1000))) ∧
    ((timer.timerSeconds = .empty ∨ timer.timerSeconds = .num (.num 0)) →
      updateTimer prevTimer timer = none) ∧
    (∀ prev2, updateTimer prevTimer timer = updateTimer prev2 timer) := by
  refine ⟨?_, ?_, ?_, ?_, fun _ => rfl⟩
  · by_cases hc : (timer.isTimerEnabled && timerSecondsTruthy timer.timerSeconds) = true
    · rw [updateTimer, if_pos hc]
      rw [Bool.and_eq_true] at hc
      simp [hc.1, hc.2]
    · rw [updateTimer, if_neg hc]
      rw [Bool.and_eq_true] at hc
      simpa using hc
  · intro x hx
    by_cases hc : (timer.isTimerEnabled && timerSecondsTruthy timer.timerSeconds) = true
    · rw [updateTimer, if_pos hc] at hx
      rw [Bool.and_eq_true] at hc
      injection hx with hval
      cases hts : timer.timerSeconds with
      | empty => rw [hts] at hc; simp [timerSecondsTruthy] at hc
      | num n =>
        have htn : jsTruthyNum n = true := by
          have h2 := hc.2
          rw [hts] at h2
          exact h2
        rw [hts] at hval
        cases n with
        | nan => simp [jsTruthyNum] at htn
        | inf =>
          refine ⟨86400, ?_, by norm_num, le_refl _⟩
          rw [← hval]
          simp [timerSecondsOrNaN, jsTruthyNum, bound, jsMax, jsMin, jsMul1000]
        | ninf =>
          refine ⟨1, ?_, le_refl _, by norm_num⟩
          rw [← hval]
          simp [timerSecondsOrNaN, jsTruthyNum, bound, jsMax, jsMin, jsMul1000,
            min_eq_left (by norm_num : (1:ℚ) ≤ 86400)]
        | num r =>
          refine ⟨min (max r 1) 86400, ?_,
            le_min (le_max_right r 1) (by norm_num), min_le_right _ _⟩
          rw [← hval]
          simp [timerSecondsOrNaN, htn, bound, jsMax, jsMin, jsMul1000]
    · rw [updateTimer, if_neg hc] at hx
      exact absurd hx (by simp)
  · intro n hn hts hen
    have htn : jsTruthyNum (.num (n : ℚ)) = true := by
      simp only [jsTruthyNum, decide_eq_true_eq]
      exact_mod_cast hn.ne'
    have hc : (timer.isTimerEnabled && timerSecondsTruthy timer.timerSeconds) = true := by
      rw [hen, hts]
      simpa [timerSecondsTruthy] using htn
    rw [updateTimer, if_pos hc, hts]
    have hmax : max (n : ℚ) 1 = (n : ℚ) := max_eq_left (by exact_mod_cast hn)
    simp [timerSecondsOrNaN, htn, bound, jsMax, jsMin, jsMul1000, hmax]
  · rintro (hts | hts) <;>
      · have hc : (timer.isTimerEnabled && timerSecondsTruthy timer.timerSeconds) = false := by
          rw [hts]
          simp [timerSecondsTruthy, jsTruthyNum]
        rw [updateTimer, hc]
        rfl

/-- C8 witness: an enabled timer with 5 seconds schedules at
`min 5 86400 * 1000` milliseconds. -/
theorem C8_witness :
    updateTimer none ⟨true, .num (.num 5)⟩ =
      some (.num (min ((5:ℤ) : ℚ) 86400 * 1000)) :=
  (C8_amended none ⟨true, .num (.num 5)⟩).2.2.1 5 (by norm_num) rfl rfl

/-! ### Claim about the persistence debounce (C4) -/

/-- C4 fails on the code: the debounce compares with a strict
`now - lastSave > 60 * 1000`, so a timer-triggered cycle exactly 60
seconds after the recorded save — "at least 60 seconds elapsed" — does
not write. -/
theorem C4_counterexample :
    (setColorPersist (some 1000) true 61000).didSave = false ∧
    (61000 : ℤ) - 1000 ≥ 60 * 1000 := by
  exact ⟨rfl, by decide⟩

/-- C4 (amended): a manual cycle reschedules the timer, writes
unconditionally and leaves the save timestamp alone; a timer-triggered
cycle never reschedules and writes exactly when no prior save is recorded
(`lastSave` falsy) or strictly more than 60 seconds have elapsed since
it, recording the new timestamp on a write and keeping the state
untouched otherwise; in particular 5 timer cycles at 1, 3, 5, 7 and 9
seconds produce exactly one write (the first), and a further cycle 61
seconds after that write (at 62 seconds) writes again. -/
theorem C4_amended :
    (∀ lastSave now, setColorPersist lastSave false now =
      { didSave := true, didRescheduleTimer := true, lastSave := lastSave }) ∧
    (∀ lastSave now, ((setColorPersist lastSave true now).didSave = true ↔
      lastSaveTruthy lastSave = false ∨
        (now : ℤ) - (lastSave.getD 0 : ℤ) > 60 * 1000)) ∧
    (∀ lastSave now, (setColorPersist lastSave true now).didRescheduleTimer = false) ∧
    (∀ lastSave now, (setColorPersist lastSave true now).lastSave =
      (if (setColorPersist lastSave true now).didSave then some now else lastSave)) ∧
    runTimerCycles none [1000, 3000, 5000, 7000, 9000] = (1, some 1000) ∧
    (setColorPersist (some 1000) true 62000).didSave = true := by
  refine ⟨fun _ _ => rfl, ?_, ?_, ?_, by decide, rfl⟩
  · intro lastSave now
    by_cases ht : lastSaveTruthy lastSave = true
    · by_cases hgt : (60000 : ℤ) < (now : ℤ) - (lastSave.getD 0 : ℤ)
      · simp [setColorPersist, ht, hgt]
      · simp [setColorPersist, ht, hgt]
    · rw [Bool.not_eq_true] at ht
      simp [setColorPersist, ht]
  · intro lastSave now
    by_cases ht : lastSaveTruthy lastSave = true
    · by_cases hgt : (60000 : ℤ) < (now : ℤ) - (lastSave.getD 0 : ℤ)
      · simp [setColorPersist, ht, hgt]
      · simp [setColorPersist, ht, hgt]
    · rw [Bool.not_eq_true] at ht
      simp [setColorPersist, ht]
  · intro lastSave now
    by_cases ht : lastSaveTruthy lastSave = true
    · by_cases hgt : (60000 : ℤ) < (now : ℤ) - (lastSave.getD 0 : ℤ)
      · simp [setColorPersist, ht, hgt]
      · simp [setColorPersist, ht, hgt]
    · rw [Bool.not_eq_true] at ht
      simp [setColorPersist, ht]

/-! ### Lookup facts about object spread -/

/-- A key found in the front part of an append is found in the append. -/
theorem lookup_append_some {l1 l2 : List (String × JSVal)} {k : String} {v : JSVal}
    (h : l1.lookup k = some v) : (l1 ++ l2).lookup k = some v := by
  induction l1 with
  | nil => simp [List.lookup] at h
  | cons p t ih =>
    obtain ⟨k1, v1⟩ := p
    rw [List.cons_append]
    rw [List.lookup_cons] at h ⊢
    cases hbeq : (k == k1) with
    | true => rw [hbeq] at h; exact h
    | false => rw [hbeq] at h; exact ih h

/-- A key absent from the front part of an append is looked up in the
back part. -/
theorem lookup_append_none {l1 l2 : List (String × JSVal)} {k : String}
    (h : l1.lookup k = none) : (l1 ++ l2).lookup k = l2.lookup k := by
  induction l1 with
  | nil => rfl
  | cons p t ih =>
    obtain ⟨k1, v1⟩ := p
    rw [List.cons_append]
    rw [List.lookup_cons] at h ⊢
    cases hbeq : (k == k1) with
    | true => rw [hbeq] at h; simp at h
    | false => rw [hbeq] at h; exact ih h

/-- Filtering out the keys that `b` overrides does not change the lookup
of a key `b` does not hold. -/
theorem lookup_filter_of_none {a b : List (String × JSVal)} {k : String}
    (h : b.lookup k = none) :
    (a.filter (fun p => (b.lookup p.1).isNone)).lookup k = a.lookup k := by
  induction a with
  | nil => rfl
  | cons p t ih =>
    obtain ⟨k1, v1⟩ := p
    rw [List.filter_cons]
    by_cases hc : (b.lookup k1).isNone = true
    · rw [if_pos hc, List.lookup_cons, List.lookup_cons]
      cases hbeq : (k == k1) with
      | true => rfl
      | false => exact ih
    · rw [if_neg hc]
      rw [List.lookup_cons]
      cases hbeq : (k == k1) with
      | true =>
        exfalso
        have hk : k = k1 := eq_of_beq hbeq
        rw [← hk] at hc
        rw [h] at hc
        exact hc rfl
      | false => exact ih

/-- In `{...a, ...b}`, a key `b` holds gets `b`'s value. -/
theorem lookup_mergeProps_some {a b : List (String × JSVal)} {k : String} {v : JSVal}
    (h : b.lookup k = some v) : (mergeProps a b).lookup k = some v :=
  lookup_append_some h

/-- In `{...a, ...b}`, a key `b` does not hold gets `a`'s value. -/
theorem lookup_mergeProps_none {a b : List (String × JSVal)} {k : String}
    (h : b.lookup k = none) : (mergeProps a b).lookup k = a.lookup k := by
  unfold mergeProps
  rw [lookup_append_none h, lookup_filter_of_none h]

/-- A truthy value is never nullish. -/
theorem truthy_not_nullish {v : JSVal} (h : truthy v = true) :
    isNullish v = false := by
  cases v <;> simp_all [truthy, isNullish]

/-! ### Claim about loading a null record (C2) -/

/-- C2 fails on the code: on a null persisted record (the fresh-install
result of `loadData()`), the first line of `migrateBaseThemeSettings`
reads `savedData.themes` without optional chaining and throws a
`TypeError`, which propagates out of `loadSettings`. -/
theorem C2_null_crash :
    migrateBaseThemeSettings .null = .error () ∧
    loadSettings .null = .error () :=
  ⟨rfl, rfl⟩

/-! ### Claim about the flat-to-partitioned migration (C3) -/

/-- C3: a legacy flat record (no `themes` key, a truthy top-level
`behavior`) migrates to the partitioned shape: the base context keeps the
flat `color` and `behavior` and every field of the flat per-behavior
objects verbatim, the dark and light contexts are the compiled-in default
theme settings, the re-saved record has none of the legacy top-level
keys, and migrating the migrated record again returns it unchanged. -/
theorem C3_migration (savedData : JSVal)
    (hnn : isNullish savedData = false)
    (hthemes : truthy (getField savedData "themes") = false)
    (hbeh : truthy (getField savedData "behavior") = true) :
    migrateBaseThemeSettings savedData = .ok (migratedRecord savedData) ∧
    (isNullish (getField savedData "color") = false →
      getField (getField (getField (migratedRecord savedData) "themes") "base") "color"
        = getField savedData "color") ∧
    getField (getField (getField (migratedRecord savedData) "themes") "base") "behavior"
        = getField savedData "behavior" ∧
    (∀ sec : String,
      sec = "timer" ∨ sec = "increment" ∨ sec = "random" ∨ sec = "preset" →
      ∀ k v, (ownProps (getField savedData sec)).lookup k = some v →
        ∃ fs, getField (getField (getField (migratedRecord savedData) "themes") "base") sec
            = .obj fs ∧ fs.lookup k = some v) ∧
    getField (getField (migratedRecord savedData) "themes") "dark" = defaultThemeJS ∧
    getField (getField (migratedRecord savedData) "themes") "light" = defaultThemeJS ∧
    (∀ k : String, k = "color" ∨ k = "behavior" ∨ k = "timer" ∨ k = "increment" ∨
        k = "random" ∨ k = "preset" →
      getField (migratedRecord savedData) k = .undefined) ∧
    migrateBaseThemeSettings (migratedRecord savedData) = .ok (migratedRecord savedData) := by
  refine ⟨?_, ?_, ?_, ?_, rfl, rfl, ?_, rfl⟩
  · simp [migrateBaseThemeSettings, hnn, hthemes, hbeh]
  · intro hcol
    show coalesce (optField savedData "color") defaultColorJS = _
    simp [optField, coalesce, hnn, hcol]
  · have hbnn : isNullish (getField savedData "behavior") = false := by
      cases hv : getField savedData "behavior" <;> simp_all [truthy, isNullish]
    show coalesce (optField savedData "behavior") (.str "increment") = _
    simp [optField, coalesce, hnn, hbnn]
  · intro sec hsec k v h
    have hopt : optField savedData sec = getField savedData sec := by
      simp [optField, hnn]
    rcases hsec with h1 | h1 | h1 | h1 <;> subst h1 <;>
      exact ⟨_, rfl, by rw [hopt]; exact lookup_mergeProps_some h⟩
  · rintro k (h1 | h1 | h1 | h1 | h1 | h1) <;> subst h1 <;> rfl

/-- C3 witness: the legacy record
`{color: {h:10, s:50, l:50}, behavior: "increment", increment: {degrees: 45}}`
migrates with its color and `increment.degrees` preserved, default dark
and light contexts, and a second migration is the identity on the
result. -/
theorem C3_witness :
    migrateBaseThemeSettings
        (.obj [("color", .obj [("h", .num 10), ("s", .num 50), ("l", .num 50)]),
               ("behavior", .str "increment"),
               ("increment", .obj [("degrees", .num 45)])]) =
      .ok (migratedRecord
        (.obj [("color", .obj [("h", .num 10), ("s", .num 50), ("l", .num 50)]),
               ("behavior", .str "increment"),
               ("increment", .obj [("degrees", .num 45)])])) ∧
    getField (getField (getField (migratedRecord
        (.obj [("color", .obj [("h", .num 10), ("s", .num 50), ("l", .num 50)]),
               ("behavior", .str "increment"),
               ("increment", .obj [("degrees", .num 45)])])) "themes") "base") "color"
      = .obj [("h", .num 10), ("s", .num 50), ("l", .num 50)] ∧
    (∃ fs, getField (getField (getField (migratedRecord
        (.obj [("color", .obj [("h", .num 10), ("s", .num 50), ("l", .num 50)]),
               ("behavior", .str "increment"),
               ("increment", .obj [("degrees", .num 45)])])) "themes") "base") "increment"
        = .obj fs ∧ fs.lookup "degrees" = some (.num 45)) ∧
    getField (getField (migratedRecord
        (.obj [("color", .obj [("h", .num 10), ("s", .num 50), ("l", .num 50)]),
               ("behavior", .str "increment"),
               ("increment", .obj [("degrees", .num 45)])])) "themes") "dark"
      = defaultThemeJS ∧
    migrateBaseThemeSettings (migratedRecord
        (.obj [("color", .obj [("h", .num 10), ("s", .num 50), ("l", .num 50)]),
               ("behavior", .str "increment"),
               ("increment", .obj [("degrees", .num 45)])])) =
      .ok (migratedRecord
        (.obj [("color", .obj [("h", .num 10), ("s", .num 50), ("l", .num 50)]),
               ("behavior", .str "increment"),
               ("increment", .obj [("degrees", .num 45)])])) := by
  have H := C3_migration
    (.obj [("color", .obj [("h", .num 10), ("s", .num 50), ("l", .num 50)]),
           ("behavior", .str "increment"),
           ("increment", .obj [("degrees", .num 45)])])
    rfl rfl rfl
  exact ⟨H.1, (H.2.1 rfl).trans rfl,
    H.2.2.2.1 "increment" (Or.inr (Or.inl rfl)) "degrees" (.num 45) rfl,
    H.2.2.2.2.1, H.2.2.2.2.2.2.2⟩

/-! ### Claim about field-level defaulting on load (C7) -/

/-- When the saved record and its `themes` object are present and the
requested context is present, the `savedData?.themes[mode]?.key` chain
evaluates to a plain read. -/
theorem chainThemeField_eval (savedData : JSVal) (mode key : String)
    (hnn : isNullish savedData = false)
    (hth : isNullish (getField savedData "themes") = false)
    (hctx : isNullish (getField (getField savedData "themes") mode) = false) :
    chainThemeField savedData mode key =
      .ok (getField (getField (getField savedData "themes") mode) key) := by
  simp [chainThemeField, hnn, hth, hctx]

/-- The chain never throws once the record and its `themes` object are
present (an absent context short-circuits to `undefined`). -/
theorem chainThemeField_isOk (savedData : JSVal) (mode key : String)
    (hnn : isNullish savedData = false)
    (hth : isNullish (getField savedData "themes") = false) :
    ∃ v, chainThemeField savedData mode key = .ok v := by
  by_cases hctx : isNullish (getField (getField savedData "themes") mode) = true
  · exact ⟨.undefined, by simp [chainThemeField, hnn, hth, hctx]⟩
  · rw [Bool.not_eq_true] at hctx
    exact ⟨_, chainThemeField_eval savedData mode key hnn hth hctx⟩

/-- `getThemeSettings` on a present record, `themes` object and context:
the exact record it builds. -/
theorem getThemeSettings_eval (savedData : JSVal) (mode : String)
    (hnn : isNullish savedData = false)
    (hth : isNullish (getField savedData "themes") = false)
    (hctx : isNullish (getField (getField savedData "themes") mode) = false) :
    getThemeSettings savedData mode = .ok (.obj [
      ("color", coalesce (getField (getField (getField savedData "themes") mode) "color")
        defaultColorJS),
      ("behavior", coalesce (getField (getField (getField savedData "themes") mode) "behavior")
        (.str "increment")),
      ("timer", .obj (mergeProps (ownProps defaultTimerJS)
        (ownProps (getField (getField (getField savedData "themes") mode) "timer")))),
      ("increment", .obj (mergeProps (ownProps defaultIncrementJS)
        (ownProps (getField (getField (getField savedData "themes") mode) "increment")))),
      ("random", .obj (mergeProps (ownProps defaultRandomJS)
        (ownProps (getField (getField (getField savedData "themes") mode) "random")))),
      ("preset", .obj (mergeProps (ownProps defaultPresetJS)
        (ownProps (getField (getField (getField savedData "themes") mode) "preset"))))]) := by
  rw [getThemeSettings,
    chainThemeField_eval savedData mode "color" hnn hth hctx,
    chainThemeField_eval savedData mode "behavior" hnn hth hctx,
    chainThemeField_eval savedData mode "timer" hnn hth hctx,
    chainThemeField_eval savedData mode "increment" hnn hth hctx,
    chainThemeField_eval savedData mode "random" hnn hth hctx,
    chainThemeField_eval savedData mode "preset" hnn hth hctx]

/-- `getThemeSettings` succeeds for every mode once the record and its
`themes` object are present. -/
theorem getThemeSettings_isOk (savedData : JSVal) (mode : String)
    (hnn : isNullish savedData = false)
    (hth : isNullish (getField savedData "themes") = false) :
    ∃ t, getThemeSettings savedData mode = .ok t := by
  obtain ⟨c1, h1⟩ := chainThemeField_isOk savedData mode "color" hnn hth
  obtain ⟨c2, h2⟩ := chainThemeField_isOk savedData mode "behavior" hnn hth
  obtain ⟨c3, h3⟩ := chainThemeField_isOk savedData mode "timer" hnn hth
  obtain ⟨c4, h4⟩ := chainThemeField_isOk savedData mode "increment" hnn hth
  obtain ⟨c5, h5⟩ := chainThemeField_isOk savedData mode "random" hnn hth
  obtain ⟨c6, h6⟩ := chainThemeField_isOk savedData mode "preset" hnn hth
  exact ⟨_, by rw [getThemeSettings, h1, h2, h3, h4, h5, h6]⟩

/-- C7: loading an already-partitioned record deep-merges every nested
settings object (`timer`, `increment`, `random`, `preset`) of every
context key-by-key against the compiled-in defaults: a key the saved
nested object holds keeps its saved value, and a key it is missing gets
the default's value for that key alone. -/
theorem C7_deep_merge (savedData : JSVal) (mode sec : String)
    (hnn : isNullish savedData = false)
    (hthemes : truthy (getField savedData "themes") = true)
    (hmode : mode = "base" ∨ mode = "dark" ∨ mode = "light")
    (hctx : isNullish (getField (getField savedData "themes") mode) = false)
    (hsec : sec = "timer" ∨ sec = "increment" ∨ sec = "random" ∨ sec = "preset") :
    ∃ r fs, loadSettings savedData = .ok r ∧
      getField (getField (getField r "themes") mode) sec = .obj fs ∧
      (∀ k v, (ownProps (getField (getField (getField savedData "themes") mode) sec)).lookup k
          = some v → fs.lookup k = some v) ∧
      (∀ k, (ownProps (getField (getField (getField savedData "themes") mode) sec)).lookup k
          = none → fs.lookup k = (ownProps (getField defaultThemeJS sec)).lookup k) := by
  have hth : isNullish (getField savedData "themes") = false := truthy_not_nullish hthemes
  have hmig : migrateBaseThemeSettings savedData = .ok savedData := by
    simp [migrateBaseThemeSettings, hnn, hthemes]
  obtain ⟨tb, htb⟩ := getThemeSettings_isOk savedData "base" hnn hth
  obtain ⟨td, htd⟩ := getThemeSettings_isOk savedData "dark" hnn hth
  obtain ⟨tl, htl⟩ := getThemeSettings_isOk savedData "light" hnn hth
  have hload : loadSettings savedData = .ok (.obj (mergeProps
      (mergeProps (ownProps defaultSettingsJS) (ownProps savedData))
      [("themes", .obj [("base", tb), ("dark", td), ("light", tl)])])) := by
    simp only [loadSettings, hmig, htb, htd, htl]
  rcases hmode with hm | hm | hm <;> subst hm <;>
    rcases hsec with hs | hs | hs | hs <;> subst hs <;>
    · have hfocus := getThemeSettings_eval savedData _ hnn hth hctx
      first
        | rw [htb] at hfocus
        | rw [htd] at hfocus
        | rw [htl] at hfocus
      injection hfocus with heq
      subst heq
      exact ⟨_, _, hload, rfl,
        fun k v h => lookup_mergeProps_some h,
        fun k h => lookup_mergeProps_none h⟩

/-- C7 witness: a record whose `base.random` holds only
`{isHueRandom: true, hue: 123}` loads with `random.hue = 123` kept and
the missing `random.isLightnessRandom` defaulted to `false`. -/
theorem C7_witness :
    ∃ r fs, loadSettings
        (.obj [("themes", .obj [("base", .obj [("random",
          .obj [("isHueRandom", .bool true), ("hue", .num 123)])])])]) = .ok r ∧
      getField (getField (getField r "themes") "base") "random" = .obj fs ∧
      fs.lookup "hue" = some (.num 123) ∧
      fs.lookup "isLightnessRandom" = some (.bool false) := by
  obtain ⟨r, fs, hr, hf, hsome, hnone⟩ := C7_deep_merge
    (.obj [("themes", .obj [("base", .obj [("random",
      .obj [("isHueRandom", .bool true), ("hue", .num 123)])])])])
    "base" "random" rfl rfl (Or.inl rfl) rfl (Or.inr (Or.inr (Or.inl rfl)))
  refine ⟨r, fs, hr, hf, hsome "hue" (.num 123) rfl, ?_⟩
  rw [hnone "isLightnessRandom" rfl]
  rfl

end ColorCycler
